import Mathlib

/-!
Verification of the TrustLens multi-agent code-review core.

Shallow embedding of the orchestration/decision engine:
* `backend/orchestrator/reliability.py` (`ReliabilityEngine`),
* `OneDrive/.../orchestrator/reliability.py` (the legacy variant),
* `duhacks/.../agents/decision_agent.py` (`DecisionAgent`),
* `duhacks/.../orchestrator/conflict_resolver.py` (`ConflictResolver`),
* `backend/snippet/parsers/python_parser.py` (`PythonParser`),
* `backend/snippet/selectors/security_selector.py`,
* `duhacks/.../snippet/selectors/logic_selector.py`,
* `backend/orchestrator/routing_policy.py` (`RoutingPolicy`),
* `backend/schemas/code_snippet.py` (`CodeSnippet`).

Python floats are modelled as rationals (`ℚ`); all arithmetic in the claims
is exact on the values appearing in the code.
-/

/-- `RiskLevel` enum of `backend/schemas/agent_output.py`. -/
inductive RiskLevel where
  | none
  | low
  | medium
  | high
  | critical
deriving DecidableEq, Repr

/-- The severity table used by `RiskLevel.__lt__` etc. and by
`ConflictResolver._detect_risk_disagreements` (NONE=0 .. CRITICAL=4). -/
def riskRank : RiskLevel → ℕ
  | .none => 0
  | .low => 1
  | .medium => 2
  | .high => 3
  | .critical => 4

/-- `AgentType` enum of `backend/schemas/agent_output.py`. -/
inductive AgentType where
  | featureExtraction
  | securityAnalysis
  | logicAnalysis
  | codeQuality
  | decision
deriving DecidableEq, Repr

/-- The `.value` string of each `AgentType` enum member. -/
def AgentType.value : AgentType → String
  | .featureExtraction => "feature_extraction"
  | .securityAnalysis => "security_analysis"
  | .logicAnalysis => "logic_analysis"
  | .codeQuality => "code_quality"
  | .decision => "decision"

/-- `AgentOutput` dataclass of `backend/schemas/agent_output.py`.
`findings` are modelled by their description strings; the free-form
`metadata` dict carries no information used by the verified components and
is omitted. -/
structure AgentOutput where
  agentType : AgentType
  confidence : ℚ
  findings : List String
  riskLevel : RiskLevel
  success : Bool
  errorMessage : Option String
deriving DecidableEq, Repr

/-- `ConflictInfo` dataclass of `schemas/final_report.py`.  Each conflicting
finding is the `{agent, risk_level, confidence}` record built by the
conflict resolver. -/
structure ConflictInfo where
  agentsInvolved : List String
  disagreementLevel : ℚ
  conflictingFindings : List (String × RiskLevel × ℚ)
deriving DecidableEq, Repr

/-! ## Backend `ReliabilityEngine` (`backend/orchestrator/reliability.py`) -/

/-- The static reliability table built in `ReliabilityEngine.__init__`
combined with the `.get(agent_type, 1.0)` default lookup of
`aggregate_confidence`: every agent kind resolves to 1.0. -/
def defaultAgentReliability : AgentType → ℚ := fun _ => 1

/-- `sum_weighted_confidence` accumulated by the loop in
`ReliabilityEngine.aggregate_confidence` over a list of outputs. -/
def weightedConfidenceSum (rel : AgentType → ℚ) (outputs : List AgentOutput) : ℚ :=
  (outputs.map (fun o => o.confidence * rel o.agentType)).sum

/-- `sum_reliability` accumulated by the loop in
`ReliabilityEngine.aggregate_confidence` over a list of outputs. -/
def reliabilitySum (rel : AgentType → ℚ) (outputs : List AgentOutput) : ℚ :=
  (outputs.map (fun o => rel o.agentType)).sum

/-- `ReliabilityEngine.aggregate_confidence` (backend, lines 27-50):
filter to the successful outputs, return 0.0 when none remain, otherwise
the reliability-weighted sum divided by the reliability sum (guarded
against a zero divisor).  The reliability lookup is abstracted to the
function `rel`; the engine as constructed uses `defaultAgentReliability`. -/
def aggregateConfidence (rel : AgentType → ℚ) (outputs : List AgentOutput) : ℚ :=
  let successfulOutputs := outputs.filter (fun o => o.success)
  if successfulOutputs.isEmpty then 0
  else if reliabilitySum rel successfulOutputs = 0 then 0
  else weightedConfidenceSum rel successfulOutputs / reliabilitySum rel successfulOutputs

/-- The dict returned by `ReliabilityEngine.get_failures` (backend,
lines 52-67). -/
structure Failures where
  failedAgents : List String
  securityFailed : Bool
deriving DecidableEq, Repr

/-- `ReliabilityEngine.get_failures` (backend, lines 52-67). -/
def getFailures (outputs : List AgentOutput) : Failures :=
  { failedAgents := (outputs.filter (fun o => !o.success)).map (fun o => o.agentType.value)
    securityFailed :=
      outputs.any (fun o => o.agentType == AgentType.securityAnalysis && !o.success) }

/-- The deferral reason returned by `should_defer`, one constructor per
rule of the ordered safety gate (plus `proceed` for the empty reason). -/
inductive DeferReason where
  | noSuccessfulOutputs
  | lowConfidence
  | unresolvedConflicts
  | securityAgentFailed
  | criticalRiskLowConfidence
  | proceed
deriving DecidableEq, Repr

/-- The constant parts of the reason strings returned by the backend
`should_defer`; the rule-2 and rule-3 strings interpolate the confidence
value and the conflict count around the fixed text kept here. -/
def deferMessage : DeferReason → String
  | .noSuccessfulOutputs => "No successful agent outputs received"
  | .lowConfidence => "below threshold"
  | .unresolvedConflicts => "unresolved conflicts between agents"
  | .securityAgentFailed => "Security analysis agent failed to complete"
  | .criticalRiskLowConfidence =>
      "Critical risk detected but overall confidence is below safety threshold (0.80)"
  | .proceed => ""

/-- `ReliabilityEngine.should_defer` (backend, lines 69-101): the ordered
safety gate.  Rule 1 tests `overall_confidence <= 0.0`; rule 2 tests the
threshold (default 0.7); rule 3 tests conflict non-emptiness; rule 4 reads
`failures["security_failed"]`; rule 5 tests CRITICAL risk against 0.80. -/
def shouldDefer (overallConfidence : ℚ) (conflicts : List ConflictInfo)
    (failures : Failures) (maxRisk : RiskLevel)
    (minConfidenceThreshold : ℚ) : Bool × DeferReason :=
  if overallConfidence ≤ 0 then (true, .noSuccessfulOutputs)
  else if overallConfidence < minConfidenceThreshold then (true, .lowConfidence)
  else if !conflicts.isEmpty then (true, .unresolvedConflicts)
  else if failures.securityFailed then (true, .securityAgentFailed)
  else if maxRisk == RiskLevel.critical && overallConfidence < (8 : ℚ)/10 then
    (true, .criticalRiskLowConfidence)
  else (false, .proceed)

/-! ## Legacy `ReliabilityEngine`
(`OneDrive/Desktop/duhacks/multi_agent_code_reviewer/orchestrator/reliability.py`) -/

/-- Legacy `ReliabilityEngine.aggregate_confidence` (OneDrive variant,
lines 19-49): the weighted confidences are summed and divided by their
COUNT (`len(weighted_confidences)`), not by the reliability sum.  The
history-derived `_get_agent_reliability` lookup is abstracted to `rel`
(1.0 for agents with no recorded history). -/
def aggregateConfidenceLegacy (rel : AgentType → ℚ) (outputs : List AgentOutput) : ℚ :=
  if outputs.isEmpty then 0
  else
    let successfulOutputs := outputs.filter (fun o => o.success)
    if successfulOutputs.isEmpty then 0
    else weightedConfidenceSum rel successfulOutputs / (successfulOutputs.length : ℚ)

/-- Legacy `ReliabilityEngine.should_defer` (OneDrive variant, lines
88-113): only the low-confidence rule and the conflict rule; there is no
security-failure rule and no CRITICAL-risk rule. -/
def shouldDeferLegacy (overallConfidence : ℚ) (conflicts : List ConflictInfo)
    (minConfidenceThreshold : ℚ) : Bool × DeferReason :=
  if overallConfidence < minConfidenceThreshold then (true, .lowConfidence)
  else if !conflicts.isEmpty then (true, .unresolvedConflicts)
  else (false, .proceed)

/-! ## `DecisionAgent` (`duhacks/.../agents/decision_agent.py`) -/

/-- The recommended action strings produced by
`DecisionAgent._determine_recommendation`. -/
inductive RecommendAction where
  | defer
  | manualReviewRequired
  | reviewRequired
  | proceedWithCaution
  | acceptable
deriving DecidableEq, Repr

/-- `DecisionAgent._calculate_decision_confidence` (lines 156-169):
`penalty = min(0.2 * conflict_count, 0.5)`;
`return max(overall_confidence - penalty, 0.0)`. -/
def calculateDecisionConfidence (overallConfidence : ℚ) (conflictCount : ℕ) : ℚ :=
  max (overallConfidence - min ((2 : ℚ)/10 * conflictCount) ((5 : ℚ)/10)) 0

/-- `DecisionAgent.recommend_action` passes `len(conflicts)` to
`_calculate_decision_confidence` (lines 63-66). -/
def decisionConfidenceFromConflicts (overallConfidence : ℚ)
    (conflicts : List ConflictInfo) : ℚ :=
  calculateDecisionConfidence overallConfidence conflicts.length

/-- Modelled from the spec (for comparison with the code): the claimed
formula `max(0, aggregated_confidence − min(0.5, Σ 0.2·disagreement_level))`
summed over the detected conflicts' disagreement levels. -/
def specDecisionConfidence (overallConfidence : ℚ) (conflicts : List ConflictInfo) : ℚ :=
  max 0 (overallConfidence -
    min ((5 : ℚ)/10) ((conflicts.map (fun c => (2 : ℚ)/10 * c.disagreementLevel)).sum))

/-- `DecisionAgent._determine_recommendation` (lines 94-154), reduced to
the action it selects: the low-confidence and conflict guards first, then
the membership tests on the risk-level list, CRITICAL down to MEDIUM,
defaulting to `acceptable`. -/
def determineRecommendation (riskLevels : List RiskLevel) (confidence : ℚ)
    (conflicts : List ConflictInfo) (minConfidenceThreshold : ℚ) : RecommendAction :=
  if confidence < minConfidenceThreshold then .defer
  else if !conflicts.isEmpty then .defer
  else if RiskLevel.critical ∈ riskLevels then .manualReviewRequired
  else if RiskLevel.high ∈ riskLevels then .reviewRequired
  else if RiskLevel.medium ∈ riskLevels then .proceedWithCaution
  else .acceptable

/-- `DecisionAgent.recommend_action` (lines 34-92), reduced to the action:
the risk levels are collected from the SUCCESSFUL outputs only (line 53)
and passed to `_determine_recommendation`. -/
def recommendedAction (allOutputs : List AgentOutput) (overallConfidence : ℚ)
    (conflicts : List ConflictInfo) (minConfidenceThreshold : ℚ) : RecommendAction :=
  determineRecommendation ((allOutputs.filter (fun o => o.success)).map (fun o => o.riskLevel))
    overallConfidence conflicts minConfidenceThreshold

/-- The highest risk rank occurring in a list of risk levels (0 when the
list is empty); used to state that the recommendation is determined by
the highest successful risk level. -/
def maxRiskRank (riskLevels : List RiskLevel) : ℕ :=
  riskLevels.foldr (fun r acc => max (riskRank r) acc) 0

/-- The action the claim assigns to each highest-risk rank:
CRITICAL (4) → manual review, HIGH (3) → review, MEDIUM (2) → caution,
anything lower → acceptable. -/
def actionOfMaxRank (n : ℕ) : RecommendAction :=
  if n = 4 then .manualReviewRequired
  else if n = 3 then .reviewRequired
  else if n = 2 then .proceedWithCaution
  else .acceptable

/-! ## `ConflictResolver` (`duhacks/.../orchestrator/conflict_resolver.py`) -/

/-- The `ConflictInfo` appended by
`ConflictResolver._detect_risk_disagreements` for one (security, logic)
pair (lines 83-98). -/
def mkRiskConflict (secOut logOut : AgentOutput) : ConflictInfo :=
  { agentsInvolved := ["security_analysis", "logic_analysis"]
    disagreementLevel :=
      (((riskRank secOut.riskLevel : ℤ) - (riskRank logOut.riskLevel : ℤ)).natAbs : ℚ) / 4
    conflictingFindings :=
      [("security_analysis", secOut.riskLevel, secOut.confidence),
       ("logic_analysis", logOut.riskLevel, logOut.confidence)] }

/-- The rank difference `abs(sec_risk - log_risk)` tested at line 80 of
the conflict resolver. -/
def riskRankDiff (secOut logOut : AgentOutput) : ℕ :=
  ((riskRank secOut.riskLevel : ℤ) - (riskRank logOut.riskLevel : ℤ)).natAbs

/-- `ConflictResolver._detect_risk_disagreements` (lines 48-100): for the
nested loops over security outputs and logic outputs, append one conflict
per pair whose rank difference is at least 2, with
`disagreement_level = diff / 4.0`. -/
def detectRiskDisagreements (outputs : List AgentOutput) : List ConflictInfo :=
  let securityOutputs := outputs.filter (fun o => o.agentType.value == "security_analysis")
  let logicOutputs := outputs.filter (fun o => o.agentType.value == "logic_analysis")
  if securityOutputs.isEmpty || logicOutputs.isEmpty then []
  else
    securityOutputs.flatMap (fun secOut =>
      logicOutputs.filterMap (fun logOut =>
        if 2 ≤ riskRankDiff secOut logOut then some (mkRiskConflict secOut logOut)
        else none))

/-- The number of (security output, logic output) pairs whose risk ranks
differ by at least 2; the claim states the detector emits exactly one
conflict per such pair. -/
def qualifyingPairCount (outputs : List AgentOutput) : ℕ :=
  ((outputs.filter (fun o => o.agentType.value == "security_analysis")).map (fun secOut =>
    ((outputs.filter (fun o => o.agentType.value == "logic_analysis")).filter
      (fun logOut => 2 ≤ riskRankDiff secOut logOut)).length)).sum

/-! ## `PythonParser` (`backend/snippet/parsers/python_parser.py`)

The parser walks a Python `ast` tree.  A tree node is modelled by its
node kind together with its ordered children; only the kinds the parser
inspects are distinguished. -/

/-- The `ast` node kinds distinguished by the parser. -/
inductive PyKind where
  | module
  | ifStmt
  | forStmt
  | asyncForStmt
  | whileStmt
  | tryStmt
  | exceptHandler
  | boolOp
  | functionDef
  | asyncFunctionDef
  | classDef
  | callNode
  | constantNode
  | otherNode
deriving DecidableEq, Repr

/-- A Python `ast` node: its kind and its children. -/
inductive PyNode where
  | mk (kind : PyKind) (children : List PyNode)

/-- The kind of a node. -/
def PyNode.kind : PyNode → PyKind
  | .mk k _ => k

/-- The children of a node. -/
def PyNode.children : PyNode → List PyNode
  | .mk _ cs => cs

mutual

/-- All nodes of the subtree rooted at `n`, root first — the nodes
`ast.walk(n)` yields (order is irrelevant here; only counts are used). -/
def subnodes : PyNode → List PyNode
  | .mk k cs => .mk k cs :: subnodesAll cs

/-- All nodes of the subtrees rooted at the given forest. -/
def subnodesAll : List PyNode → List PyNode
  | [] => []
  | n :: ns => subnodes n ++ subnodesAll ns

end

/-- The node kinds counted by `PythonParser._compute_complexity`:
`ast.If`, `ast.For`, `ast.AsyncFor`, `ast.While`, `ast.Try`,
`ast.ExceptHandler`, `ast.BoolOp`. -/
def isBranchKind : PyKind → Bool
  | .ifStmt => true
  | .forStmt => true
  | .asyncForStmt => true
  | .whileStmt => true
  | .tryStmt => true
  | .exceptHandler => true
  | .boolOp => true
  | _ => false

/-- `PythonParser._compute_complexity` (lines 109-125): start at 1, then
walk `ast.walk(node)`, skip the root itself (`child is node`), and add 1
for every branch-kind node encountered — the walk descends into ALL
descendants, nested function and class bodies included. -/
def computeComplexity (n : PyNode) : ℕ :=
  1 + (subnodesAll n.children).countP (fun c => isBranchKind c.kind)

mutual

/-- Branch-kind nodes in one whole subtree, root included (independent
structural count used to restate `computeComplexity`). -/
def branchCountNode : PyNode → ℕ
  | .mk k cs => (if isBranchKind k then 1 else 0) + branchCountAll cs

/-- Branch-kind nodes in a forest of subtrees. -/
def branchCountAll : List PyNode → ℕ
  | [] => 0
  | n :: ns => branchCountNode n + branchCountAll ns

end

/-- The kinds opening a new scope per the claim: nested function and
class bodies. -/
def isScopeBarrier : PyKind → Bool
  | .functionDef => true
  | .asyncFunctionDef => true
  | .classDef => true
  | _ => false

mutual

/-- Modelled from the spec (for comparison with the code): branch
constructs of one subtree counted only within the current scope —
a nested function or class contributes nothing. -/
def scopedBranchCountNode : PyNode → ℕ
  | .mk k cs =>
    if isScopeBarrier k then 0
    else (if isBranchKind k then 1 else 0) + scopedBranchCountAll cs

/-- Modelled from the spec: scoped branch count over a forest. -/
def scopedBranchCountAll : List PyNode → ℕ
  | [] => 0
  | n :: ns => scopedBranchCountNode n + scopedBranchCountAll ns

end

/-- Modelled from the spec (for comparison with the code): the claimed
complexity, 1 plus the branch constructs strictly within the block's own
scope, excluding nested function/class bodies. -/
def specComplexity (n : PyNode) : ℕ :=
  1 + scopedBranchCountAll n.children

/-- `PythonParser._visit_node` (lines 37-52) reduced to the block type and
complexity it assigns: functions and loops get `_compute_complexity`,
classes get the baseline 1, other nodes yield no block. -/
def visitNodeBlock (n : PyNode) : Option (String × ℕ) :=
  match n.kind with
  | .functionDef => some ("function", computeComplexity n)
  | .asyncFunctionDef => some ("function", computeComplexity n)
  | .classDef => some ("class", 1)
  | .forStmt => some ("loop", computeComplexity n)
  | .asyncForStmt => some ("loop", computeComplexity n)
  | .whileStmt => some ("loop", computeComplexity n)
  | _ => none

/-- `PythonParser.parse` (lines 11-35) reduced to the (type, complexity)
pairs of the emitted blocks: walk every node of the tree and collect the
blocks `_visit_node` produces. -/
def parseBlocks (tree : PyNode) : List (String × ℕ) :=
  (subnodes tree).filterMap visitNodeBlock

/-! ## Selectors (`backend/snippet/selectors/security_selector.py`,
`duhacks/.../snippet/selectors/logic_selector.py`) -/

/-- The metadata flags read by the selectors (`block.metadata.get(...)`;
an absent key reads as false). -/
structure BlockMetadata where
  usesEval : Bool
  usesExec : Bool
  usesDynamicFunction : Bool
  usesReflection : Bool
  usesSqlStrings : Bool
  usesJdbc : Bool
  usesHardcodedSecrets : Bool
  isRecursive : Bool
  isInfinite : Bool
deriving DecidableEq, Repr

/-- `CodeBlock` dataclass of `backend/snippet/ir/code_block.py`. -/
structure CodeBlock where
  type : String
  name : String
  startLine : ℕ
  endLine : ℕ
  complexity : ℕ
  language : String
  metadata : BlockMetadata
deriving DecidableEq, Repr

/-- The three first-match rules of `SecuritySelector.select` (backend,
lines 18-36), as the single predicate deciding whether the loop appends
the block. -/
def securityRelevant (b : CodeBlock) : Bool :=
  (b.metadata.usesEval || b.metadata.usesExec
    || b.metadata.usesDynamicFunction || b.metadata.usesReflection)
  || ((b.metadata.usesSqlStrings || b.metadata.usesJdbc) && decide (1 < b.complexity))
  || b.metadata.usesHardcodedSecrets

/-- `SecuritySelector.select` (backend, lines 10-39): filter by the three
rules, then `selected[:5]`. -/
def securitySelect (blocks : List CodeBlock) : List CodeBlock :=
  (blocks.filter securityRelevant).take 5

/-- The three rules of `LogicSelector.select` (duhacks, lines 19-35). -/
def logicRelevant (b : CodeBlock) : Bool :=
  decide (4 ≤ b.complexity)
  || (b.type == "function" && b.metadata.isRecursive)
  || (b.type == "loop" && b.metadata.isInfinite)

/-- One step of the stable descending-by-complexity sort performed by
`selected.sort(key=..., reverse=True)`. -/
def insertByComplexityDesc (b : CodeBlock) : List CodeBlock → List CodeBlock
  | [] => [b]
  | c :: cs =>
    if b.complexity ≤ c.complexity then c :: insertByComplexityDesc b cs
    else b :: c :: cs

/-- Stable sort by descending complexity (`LogicSelector.select`,
line 38). -/
def sortByComplexityDesc (blocks : List CodeBlock) : List CodeBlock :=
  blocks.foldr insertByComplexityDesc []

/-- `LogicSelector.select` (duhacks, lines 10-41): filter by the three
rules, sort by descending complexity, then `selected[:5]`. -/
def logicSelect (blocks : List CodeBlock) : List CodeBlock :=
  (sortByComplexityDesc (blocks.filter logicRelevant)).take 5

/-! ## `CodeSnippet` and `RoutingPolicy`
(`backend/schemas/code_snippet.py`, `backend/orchestrator/routing_policy.py`) -/

/-- `CodeSnippet` dataclass of `backend/schemas/code_snippet.py`; the
content string is modelled as its character list (`len` = list length). -/
structure CodeSnippet where
  filename : String
  startLine : ℕ
  endLine : ℕ
  content : List Char
  context : String
  relevanceScore : ℚ
  tags : List String
deriving DecidableEq, Repr

/-- The invariant `CodeSnippet.__post_init__` enforces; constructing a
snippet violating it raises `ValueError`. -/
def snippetInvariant (s : CodeSnippet) : Prop :=
  0 ≤ s.relevanceScore ∧ s.relevanceScore ≤ 1 ∧ 1 ≤ s.startLine ∧ s.startLine ≤ s.endLine

/-- The `CodeSnippet` constructor including the `__post_init__`
validation: `None` models the raised `ValueError`. -/
def mkCodeSnippet (filename : String) (startLine endLine : ℕ) (content : List Char)
    (context : String) (relevanceScore : ℚ) (tags : List String) : Option CodeSnippet :=
  if 0 ≤ relevanceScore ∧ relevanceScore ≤ 1 ∧ 1 ≤ startLine ∧ startLine ≤ endLine then
    some ⟨filename, startLine, endLine, content, context, relevanceScore, tags⟩
  else none

/-- The per-snippet truncation of `RoutingPolicy.route_for_security_agent`
and `route_for_logic_agent`:
`if len(s.content) > max_snippet_chars: s.content = s.content[:max]`. -/
def truncateSnippetContent (maxChars : ℕ) (s : CodeSnippet) : CodeSnippet :=
  if maxChars < s.content.length then { s with content := s.content.take maxChars } else s

/-- The constraint-enforcement step shared by
`route_for_security_agent` (lines 78-82) and `route_for_logic_agent`
(lines 123-127): `snippets = snippets[:max_snippets_per_agent]`, then
truncate each snippet's content to `max_snippet_chars`. -/
def enforceSnippetConstraints (maxSnippets maxChars : ℕ)
    (snippets : List CodeSnippet) : List CodeSnippet :=
  (snippets.take maxSnippets).map (truncateSnippetContent maxChars)

/-- `RoutingPolicy.route_for_security_agent` (lines 41-85) reduced to the
snippet list it returns: the candidate list (fetched from S3 or produced
by `_extract_security_snippets` — both built through the validating
`CodeSnippet` constructor) passed through the constraint enforcement with
the default limits `max_snippets_per_agent = 5`,
`max_snippet_chars = 500`. -/
def routeForSecurityAgentSnippets (candidates : List CodeSnippet) : List CodeSnippet :=
  enforceSnippetConstraints 5 500 candidates

/-- `RoutingPolicy.route_for_logic_agent` (lines 87-130) reduced to the
snippet list it returns, with the same default limits. -/
def routeForLogicAgentSnippets (candidates : List CodeSnippet) : List CodeSnippet :=
  enforceSnippetConstraints 5 500 candidates

/-! ## Concrete fixtures used by witnesses and counterexamples -/

/-- A failed security-analysis output. -/
def exSecurityFailed : AgentOutput :=
  ⟨.securityAnalysis, 0, [], .none, false, some "timeout"⟩

/-- A successful logic-analysis output with confidence 0.9, risk NONE. -/
def exLogicSuccess : AgentOutput :=
  ⟨.logicAnalysis, (9 : ℚ)/10, [], .none, true, none⟩

/-- A successful logic-analysis output with confidence 1.0, risk NONE. -/
def exLogicPerfect : AgentOutput :=
  ⟨.logicAnalysis, 1, [], .none, true, none⟩

/-- A successful code-quality output with confidence 1.0, risk NONE. -/
def exQualityPerfect : AgentOutput :=
  ⟨.codeQuality, 1, [], .none, true, none⟩

/-- A successful security-analysis output with confidence 1.0, risk
CRITICAL. -/
def exSecurityCritical : AgentOutput :=
  ⟨.securityAnalysis, 1, [], .critical, true, none⟩

/-- A successful logic-analysis output with confidence 1.0, risk NONE. -/
def exLogicNone : AgentOutput :=
  ⟨.logicAnalysis, 1, [], .none, true, none⟩

/-- A successful security-analysis output with confidence 0.0. -/
def exSecurityZeroConfidence : AgentOutput :=
  ⟨.securityAnalysis, 0, [], .low, true, none⟩

/-- A conflict with full disagreement. -/
def exConflict : ConflictInfo :=
  ⟨["security_analysis", "logic_analysis"], 1, []⟩

/-- A conflict with disagreement level 0.5 (a HIGH-vs-LOW risk
disagreement produces exactly this level). -/
def exHalfConflict : ConflictInfo :=
  ⟨["security_analysis", "logic_analysis"], (1 : ℚ)/2, []⟩

/-! ## Theorems -/

/-- Claim C2 (confirmed): `aggregate_confidence` equals the
reliability-weighted mean `Σ(confidence·reliability) / Σ(reliability)`
over the successful outputs only; it is 0.0 when no output is successful,
and equals `c` for a single successful output with confidence `c` and
reliability 1.0. -/
theorem aggregate_confidence_weighted_mean (rel : AgentType → ℚ) (outputs : List AgentOutput) :
    aggregateConfidence rel outputs =
      weightedConfidenceSum rel (outputs.filter (fun o => o.success)) /
        reliabilitySum rel (outputs.filter (fun o => o.success))
    ∧ (outputs.filter (fun o => o.success) = [] → aggregateConfidence rel outputs = 0)
    ∧ (∀ o : AgentOutput, o.success = true → rel o.agentType = 1 →
        aggregateConfidence rel [o] = o.confidence) := by
  refine ⟨?_, ?_, ?_⟩
  · unfold aggregateConfidence
    by_cases hempty : (outputs.filter (fun o => o.success)).isEmpty
    · have hnil : outputs.filter (fun o => o.success) = [] := by
        simpa [List.isEmpty_iff] using hempty
      simp [hnil, weightedConfidenceSum, reliabilitySum]
    · by_cases hzero : reliabilitySum rel (outputs.filter (fun o => o.success)) = 0
      · simp [hempty, hzero]
      · simp [hempty, hzero]
  · intro hnil
    unfold aggregateConfidence
    simp [hnil]
  · intro o hsucc hrel
    unfold aggregateConfidence
    simp [hsucc, weightedConfidenceSum, reliabilitySum, hrel]

/-- Witness for C2: over one failed output the aggregate is 0.0; over one
successful output with confidence 0.9 and reliability 1.0 it is 0.9. -/
theorem aggregate_confidence_weighted_mean_witness :
    aggregateConfidence defaultAgentReliability [exSecurityFailed] = 0 ∧
    aggregateConfidence defaultAgentReliability [exLogicSuccess] = (9 : ℚ)/10 :=
  ⟨(aggregate_confidence_weighted_mean defaultAgentReliability [exSecurityFailed]).2.1 rfl,
   (aggregate_confidence_weighted_mean defaultAgentReliability [exLogicSuccess]).2.2
     exLogicSuccess rfl rfl⟩

/-- Claim C2 (corrected), counterexample: the legacy (OneDrive)
`aggregate_confidence` divides the weighted sum by the COUNT of
successful outputs, not by the reliability sum: for a single successful
output with confidence 1.0 from an agent of recorded reliability 0.5 it
returns 0.5, while the claimed formula
`Σ(confidence·reliability)/Σ(reliability)` gives 1. -/
theorem legacy_aggregate_divides_by_count :
    aggregateConfidenceLegacy (fun _ => (1 : ℚ)/2) [exLogicPerfect] = (1 : ℚ)/2
    ∧ weightedConfidenceSum (fun _ => (1 : ℚ)/2)
        ([exLogicPerfect].filter (fun o => o.success)) /
      reliabilitySum (fun _ => (1 : ℚ)/2)
        ([exLogicPerfect].filter (fun o => o.success)) = 1
    ∧ ((1 : ℚ)/2) ≠ 1 := by
  refine ⟨?_, ?_, by norm_num⟩
  · simp [aggregateConfidenceLegacy, weightedConfidenceSum, exLogicPerfect]
  · simp [weightedConfidenceSum, reliabilitySum, exLogicPerfect]

/-- Claim C1 (corrected), counterexample: in the legacy (OneDrive)
engine, the run where the security specialist failed and the other
specialists succeeded with confidence 1.0 and risk NONE aggregates to
confidence 1.0, and `should_defer` — which has no security-failure rule —
returns proceed, not defer. -/
theorem legacy_gate_ignores_security_failure :
    (getFailures [exSecurityFailed, exLogicPerfect, exQualityPerfect]).securityFailed = true
    ∧ aggregateConfidenceLegacy (fun _ => 1)
        [exSecurityFailed, exLogicPerfect, exQualityPerfect] = 1
    ∧ shouldDeferLegacy
        (aggregateConfidenceLegacy (fun _ => 1)
          [exSecurityFailed, exLogicPerfect, exQualityPerfect])
        [] ((7 : ℚ)/10) = (false, .proceed) := by
  have hagg : aggregateConfidenceLegacy (fun _ => 1)
      [exSecurityFailed, exLogicPerfect, exQualityPerfect] = 1 := by
    simp [aggregateConfidenceLegacy, weightedConfidenceSum,
      exSecurityFailed, exLogicPerfect, exQualityPerfect]
  refine ⟨rfl, hagg, ?_⟩
  rw [hagg]
  norm_num [shouldDeferLegacy]

/-- Claim C1 (amended): in the backend safety gate, whenever
`get_failures` reports the security specialist failed, `should_defer`
returns defer — for every confidence (hence even when all other
specialists are successful with confidence 1.0 and risk NONE), every
conflict list, risk level and threshold; and when no earlier rule fires
the reason is the security-failure rule.  (The legacy OneDrive
`should_defer` has no security-failure rule and does not defer there.) -/
theorem security_failure_always_defers (outputs : List AgentOutput)
    (overallConfidence : ℚ) (conflicts : List ConflictInfo) (maxRisk : RiskLevel)
    (threshold : ℚ)
    (hsec : (getFailures outputs).securityFailed = true) :
    (shouldDefer overallConfidence conflicts (getFailures outputs) maxRisk threshold).1 = true
    ∧ (0 < overallConfidence → threshold ≤ overallConfidence → conflicts = [] →
        shouldDefer overallConfidence conflicts (getFailures outputs) maxRisk threshold
          = (true, .securityAgentFailed)) := by
  constructor
  · unfold shouldDefer
    split
    · rfl
    · split
      · rfl
      · split
        · rfl
        · simp [hsec]
  · intro hpos hge hnil
    unfold shouldDefer
    rw [if_neg (by exact not_le.mpr hpos), if_neg (by exact not_lt.mpr hge)]
    simp [hnil, hsec]

/-- Witness for C1 (amended): security failed, logic and quality
succeeded with confidence 1.0 and risk NONE, no conflicts — the backend
gate defers with the security-failure reason. -/
theorem security_failure_always_defers_witness :
    shouldDefer 1 [] (getFailures [exSecurityFailed, exLogicPerfect, exQualityPerfect])
      RiskLevel.none ((7 : ℚ)/10) = (true, .securityAgentFailed) :=
  (security_failure_always_defers [exSecurityFailed, exLogicPerfect, exQualityPerfect]
    1 [] RiskLevel.none ((7 : ℚ)/10) rfl).2 (by norm_num) (by norm_num) rfl

/-- Claim C3 (confirmed): with a non-empty conflicts list `should_defer`
defers, for every confidence value — in both the backend and the legacy
engine — and in the backend gate, when rules 1 and 2 do not fire, the
reason is the conflict rule (rule 3), even when the risk is CRITICAL and
the confidence is below the stricter 0.80 threshold (rule 5 is never
consulted). -/
theorem conflicts_always_defer (overallConfidence : ℚ) (conflicts : List ConflictInfo)
    (failures : Failures) (maxRisk : RiskLevel) (threshold : ℚ)
    (hne : conflicts ≠ []) :
    (shouldDefer overallConfidence conflicts failures maxRisk threshold).1 = true
    ∧ (0 < overallConfidence → threshold ≤ overallConfidence →
        shouldDefer overallConfidence conflicts failures maxRisk threshold
          = (true, .unresolvedConflicts))
    ∧ (shouldDeferLegacy overallConfidence conflicts threshold).1 = true := by
  refine ⟨?_, ?_, ?_⟩
  · unfold shouldDefer
    split
    · rfl
    · split
      · rfl
      · simp [List.isEmpty_iff, hne]
  · intro hpos hge
    unfold shouldDefer
    rw [if_neg (by exact not_le.mpr hpos), if_neg (by exact not_lt.mpr hge)]
    simp [List.isEmpty_iff, hne]
  · unfold shouldDeferLegacy
    split
    · rfl
    · simp [List.isEmpty_iff, hne]

/-- Witness for C3: confidence 0.75 (above the 0.70 threshold, below the
stricter 0.80), risk CRITICAL, one conflict — the gate defers citing the
conflict rule, not the CRITICAL-risk rule. -/
theorem conflicts_always_defer_witness :
    shouldDefer ((3 : ℚ)/4) [exConflict] ⟨[], false⟩ RiskLevel.critical ((7 : ℚ)/10)
      = (true, .unresolvedConflicts) :=
  (conflicts_always_defer ((3 : ℚ)/4) [exConflict] ⟨[], false⟩ RiskLevel.critical
    ((7 : ℚ)/10) (by decide)).2.1 (by norm_num) (by norm_num)

/-- Claim C10 (confirmed): the backend gate's "no successful outputs"
rule tests only `overall_confidence <= 0.0`: every call with a
non-positive confidence returns defer with the fixed reason
"No successful agent outputs received" — including calls whose outputs do
contain successful agents that all reported confidence 0.0, since the
aggregate is then 0.0; the rule reads no other argument. -/
theorem no_success_rule_is_confidence_test :
    (∀ (overallConfidence : ℚ) (conflicts : List ConflictInfo) (failures : Failures)
       (maxRisk : RiskLevel) (threshold : ℚ), overallConfidence ≤ 0 →
        shouldDefer overallConfidence conflicts failures maxRisk threshold
          = (true, .noSuccessfulOutputs))
    ∧ (∀ (outputs : List AgentOutput) (conflicts : List ConflictInfo) (failures : Failures)
         (maxRisk : RiskLevel) (threshold : ℚ),
        (∀ o ∈ outputs, o.confidence = 0) →
        shouldDefer (aggregateConfidence defaultAgentReliability outputs)
          conflicts failures maxRisk threshold = (true, .noSuccessfulOutputs))
    ∧ deferMessage .noSuccessfulOutputs = "No successful agent outputs received" := by
  have hrule : ∀ (overallConfidence : ℚ) (conflicts : List ConflictInfo) (failures : Failures)
      (maxRisk : RiskLevel) (threshold : ℚ), overallConfidence ≤ 0 →
      shouldDefer overallConfidence conflicts failures maxRisk threshold
        = (true, .noSuccessfulOutputs) := by
    intro overallConfidence conflicts failures maxRisk threshold hle
    unfold shouldDefer
    rw [if_pos hle]
  refine ⟨hrule, ?_, rfl⟩
  intro outputs conflicts failures maxRisk threshold hzero
  apply hrule
  have hz : aggregateConfidence defaultAgentReliability outputs = 0 := by
    unfold aggregateConfidence
    by_cases hempty : (outputs.filter (fun o => o.success)).isEmpty
    · simp [hempty]
    · have hws : weightedConfidenceSum defaultAgentReliability
          (outputs.filter (fun o => o.success)) = 0 := by
        unfold weightedConfidenceSum
        apply List.sum_eq_zero
        intro x hx
        rcases List.mem_map.mp hx with ⟨o, ho, hox⟩
        have : o.confidence = 0 := hzero o (List.mem_of_mem_filter ho)
        simp [← hox, this]
      simp [hempty, hws]
  rw [hz]

/-- Claim C4 (corrected), counterexample: for one conflict with
disagreement level 0.5 and aggregated confidence 1.0, the code's decision
confidence is 0.8 (penalty `min(0.2·conflict_count, 0.5)`), while the
claimed formula `max(0, conf − min(0.5, Σ 0.2·disagreement_level))`
gives 0.9 — the code never reads the disagreement levels. -/
theorem decision_confidence_ignores_disagreement_level :
    decisionConfidenceFromConflicts 1 [exHalfConflict] = (4 : ℚ)/5
    ∧ specDecisionConfidence 1 [exHalfConflict] = (9 : ℚ)/10
    ∧ decisionConfidenceFromConflicts 1 [exHalfConflict]
        ≠ specDecisionConfidence 1 [exHalfConflict] := by
  have h1 : decisionConfidenceFromConflicts 1 [exHalfConflict] = (4 : ℚ)/5 := by
    norm_num [decisionConfidenceFromConflicts, calculateDecisionConfidence]
  have h2 : specDecisionConfidence 1 [exHalfConflict] = (9 : ℚ)/10 := by
    norm_num [specDecisionConfidence, exHalfConflict]
  refine ⟨h1, h2, ?_⟩
  rw [h1, h2]
  norm_num

/-- Claim C4 (amended): the decision confidence equals
`max(0, aggregated_confidence − min(0.5, 0.2·(number of conflicts)))` —
the penalty counts conflicts, each at the flat rate 0.2, and does not
weight them by their disagreement levels. -/
theorem decision_confidence_formula (overallConfidence : ℚ) (conflicts : List ConflictInfo) :
    decisionConfidenceFromConflicts overallConfidence conflicts =
      max 0 (overallConfidence - min ((5 : ℚ)/10) ((2 : ℚ)/10 * conflicts.length)) := by
  unfold decisionConfidenceFromConflicts calculateDecisionConfidence
  rw [max_comm, min_comm]

/-- Each risk rank is at most 4 (CRITICAL). -/
theorem riskRank_le_four (r : RiskLevel) : riskRank r ≤ 4 := by
  cases r <;> simp [riskRank]

/-- A non-CRITICAL level ranks at most 3. -/
theorem riskRank_le_three {r : RiskLevel} (h : r ≠ .critical) : riskRank r ≤ 3 := by
  cases r <;> simp_all [riskRank]

/-- A level that is neither CRITICAL nor HIGH ranks at most 2. -/
theorem riskRank_le_two {r : RiskLevel} (h4 : r ≠ .critical) (h3 : r ≠ .high) :
    riskRank r ≤ 2 := by
  cases r <;> simp_all [riskRank]

/-- A level that is neither CRITICAL, HIGH nor MEDIUM ranks at most 1. -/
theorem riskRank_le_one {r : RiskLevel} (h4 : r ≠ .critical) (h3 : r ≠ .high)
    (h2 : r ≠ .medium) : riskRank r ≤ 1 := by
  cases r <;> simp_all [riskRank]

/-- A member's rank bounds the maximum rank from below. -/
theorem le_maxRiskRank_of_mem {r : RiskLevel} {riskLevels : List RiskLevel}
    (h : r ∈ riskLevels) : riskRank r ≤ maxRiskRank riskLevels := by
  induction riskLevels with
  | nil => cases h
  | cons a t ih =>
    rcases List.mem_cons.mp h with h1 | h2
    · subst h1
      exact le_max_left _ _
    · exact le_trans (ih h2) (le_max_right _ _)

/-- An upper bound on every member's rank bounds the maximum rank. -/
theorem maxRiskRank_le {riskLevels : List RiskLevel} {n : ℕ}
    (h : ∀ r ∈ riskLevels, riskRank r ≤ n) : maxRiskRank riskLevels ≤ n := by
  induction riskLevels with
  | nil => exact Nat.zero_le n
  | cons a t ih =>
    exact max_le (h a (List.mem_cons_self a t))
      (ih fun r hr => h r (List.mem_cons_of_mem a hr))

/-- Once the low-confidence and conflict guards pass,
`_determine_recommendation` selects the action of the highest rank in the
risk-level list. -/
theorem determine_eq_action_of_max (riskLevels : List RiskLevel) (confidence : ℚ)
    (conflicts : List ConflictInfo) (threshold : ℚ)
    (hge : threshold ≤ confidence) (hnil : conflicts = []) :
    determineRecommendation riskLevels confidence conflicts threshold
      = actionOfMaxRank (maxRiskRank riskLevels) := by
  subst hnil
  unfold determineRecommendation
  rw [if_neg (not_lt.mpr hge)]
  simp only [List.isEmpty_nil, Bool.not_true, Bool.false_eq_true, if_false]
  by_cases hc : RiskLevel.critical ∈ riskLevels
  · rw [if_pos hc]
    have h4 : maxRiskRank riskLevels = 4 :=
      le_antisymm (maxRiskRank_le fun r _ => riskRank_le_four r) (le_maxRiskRank_of_mem hc)
    rw [h4]
    rfl
  · rw [if_neg hc]
    have hle3 : maxRiskRank riskLevels ≤ 3 :=
      maxRiskRank_le fun r hr => riskRank_le_three fun he => hc (he ▸ hr)
    by_cases hh : RiskLevel.high ∈ riskLevels
    · rw [if_pos hh]
      have h3 : maxRiskRank riskLevels = 3 := le_antisymm hle3 (le_maxRiskRank_of_mem hh)
      rw [h3]
      rfl
    · rw [if_neg hh]
      have hle2 : maxRiskRank riskLevels ≤ 2 :=
        maxRiskRank_le fun r hr =>
          riskRank_le_two (fun he => hc (he ▸ hr)) (fun he => hh (he ▸ hr))
      by_cases hm : RiskLevel.medium ∈ riskLevels
      · rw [if_pos hm]
        have h2 : maxRiskRank riskLevels = 2 := le_antisymm hle2 (le_maxRiskRank_of_mem hm)
        rw [h2]
        rfl
      · rw [if_neg hm]
        have hle1 : maxRiskRank riskLevels ≤ 1 :=
          maxRiskRank_le fun r hr =>
            riskRank_le_one (fun he => hc (he ▸ hr)) (fun he => hh (he ▸ hr))
              (fun he => hm (he ▸ hr))
        unfold actionOfMaxRank
        rw [if_neg (by omega), if_neg (by omega), if_neg (by omega)]

/-- Claim C5 (corrected), counterexample: a successful security output
with risk CRITICAL, but overall confidence 0.5 below the 0.7 threshold —
the recommended action is "defer", not the "manual_review_required" the
highest risk level would dictate. -/
theorem low_confidence_action_not_risk_driven :
    recommendedAction [exSecurityCritical] ((1 : ℚ)/2) [] ((7 : ℚ)/10) = .defer
    ∧ RecommendAction.defer ≠ .manualReviewRequired := by
  constructor
  · unfold recommendedAction determineRecommendation
    rw [if_pos (by norm_num)]
  · decide

/-- Claim C5 (amended): provided the overall confidence reaches the
threshold and no conflicts are present, the recommended action is
determined by the highest risk level among the successful outputs:
CRITICAL → manual_review_required, HIGH → review_required,
MEDIUM → proceed_with_caution, any lower maximum → acceptable. -/
theorem action_by_highest_successful_risk (allOutputs : List AgentOutput)
    (overallConfidence : ℚ) (conflicts : List ConflictInfo) (threshold : ℚ)
    (hge : threshold ≤ overallConfidence) (hnil : conflicts = []) :
    recommendedAction allOutputs overallConfidence conflicts threshold
      = actionOfMaxRank (maxRiskRank
          ((allOutputs.filter (fun o => o.success)).map (fun o => o.riskLevel))) :=
  determine_eq_action_of_max _ _ _ _ hge hnil

/-- Witness for C5 (amended): successful CRITICAL security output and
successful NONE logic output at confidence 1.0 with no conflicts — the
action is manual_review_required, from the highest risk CRITICAL. -/
theorem action_by_highest_successful_risk_witness :
    recommendedAction [exSecurityCritical, exLogicNone] 1 [] ((7 : ℚ)/10)
      = .manualReviewRequired :=
  (action_by_highest_successful_risk [exSecurityCritical, exLogicNone] 1 [] ((7 : ℚ)/10)
    (by norm_num) rfl).trans (by rfl)

/-- The security-analysis filter of the conflict resolver keeps exactly
the security outputs. -/
theorem agentType_of_value_security {a : AgentType}
    (h : (a.value == "security_analysis") = true) : a = .securityAnalysis := by
  cases a <;> simp_all [AgentType.value]

/-- The logic-analysis filter of the conflict resolver keeps exactly the
logic outputs. -/
theorem agentType_of_value_logic {a : AgentType}
    (h : (a.value == "logic_analysis") = true) : a = .logicAnalysis := by
  cases a <;> simp_all [AgentType.value]

/-- `filterMap` with an if-guard has the length of the corresponding
filter. -/
theorem length_filterMap_guard {α β : Type} (l : List α) (p : α → Prop) [DecidablePred p]
    (f : α → β) :
    (l.filterMap (fun a => if p a then some (f a) else none)).length
      = (l.filter (fun a => decide (p a))).length := by
  induction l with
  | nil => rfl
  | cons a t ih =>
    by_cases h : p a <;> simp [List.filterMap_cons, List.filter_cons, h, ih]

/-- Claim C6 (confirmed): the risk-disagreement detector emits exactly
one conflict per (security output, logic output) pair whose risk ranks
differ by at least 2; each emitted conflict carries
`disagreement_level = Δrank/4`; and a CRITICAL-versus-NONE pair yields
exactly one conflict with disagreement level 1.0. -/
theorem risk_disagreement_one_conflict_per_pair (outputs : List AgentOutput) :
    (detectRiskDisagreements outputs).length = qualifyingPairCount outputs
    ∧ (∀ c ∈ detectRiskDisagreements outputs,
        ∃ s ∈ outputs, ∃ l ∈ outputs,
          s.agentType = .securityAnalysis ∧ l.agentType = .logicAnalysis ∧
          2 ≤ riskRankDiff s l ∧ c = mkRiskConflict s l ∧
          c.disagreementLevel = (riskRankDiff s l : ℚ) / 4)
    ∧ (∀ s l : AgentOutput,
        s.agentType = .securityAnalysis → l.agentType = .logicAnalysis →
        s.riskLevel = .critical → l.riskLevel = .none →
        detectRiskDisagreements [s, l] = [mkRiskConflict s l] ∧
        (mkRiskConflict s l).disagreementLevel = 1) := by
  refine ⟨?_, ?_, ?_⟩
  · simp only [detectRiskDisagreements, qualifyingPairCount]
    by_cases hsec :
        (outputs.filter (fun o => o.agentType.value == "security_analysis")).isEmpty
    · have hnil : outputs.filter (fun o => o.agentType.value == "security_analysis") = [] := by
        simpa [List.isEmpty_iff] using hsec
      simp [hsec, hnil]
    · by_cases hlog :
          (outputs.filter (fun o => o.agentType.value == "logic_analysis")).isEmpty
      · have hnil : outputs.filter (fun o => o.agentType.value == "logic_analysis") = [] := by
          simpa [List.isEmpty_iff] using hlog
        simp [hsec, hlog, hnil]
      · rw [if_neg (by simp [hsec, hlog])]
        rw [List.length_flatMap]
        congr 1
        apply List.map_congr_left
        intro secOut _
        simp only [Function.comp_apply]
        exact length_filterMap_guard _ _ _
  · intro c hc
    simp only [detectRiskDisagreements] at hc
    split at hc
    · cases hc
    · rcases List.mem_flatMap.mp hc with ⟨s, hs, hcs⟩
      rcases List.mem_filterMap.mp hcs with ⟨l, hl, hfl⟩
      rcases List.mem_filter.mp hs with ⟨hsmem, hsp⟩
      rcases List.mem_filter.mp hl with ⟨hlmem, hlp⟩
      have hsat : s.agentType = .securityAnalysis := agentType_of_value_security hsp
      have hlat : l.agentType = .logicAnalysis := agentType_of_value_logic hlp
      split at hfl
      · rename_i hdiff
        have hceq : c = mkRiskConflict s l := (Option.some.injEq _ _).mp hfl |>.symm
        refine ⟨s, hsmem, l, hlmem, hsat, hlat, hdiff, hceq, ?_⟩
        rw [hceq]
        rfl
      · cases hfl
  · intro s l hsat hlat hsrisk hlrisk
    constructor
    · unfold detectRiskDisagreements
      have h1 : (s.agentType.value == "security_analysis") = true := by
        rw [hsat]; rfl
      have h2 : (l.agentType.value == "security_analysis") = false := by
        rw [hlat]; rfl
      have h3 : (s.agentType.value == "logic_analysis") = false := by
        rw [hsat]; rfl
      have h4 : (l.agentType.value == "logic_analysis") = true := by
        rw [hlat]; rfl
      have hdiff : riskRankDiff s l = 4 := by
        unfold riskRankDiff
        rw [hsrisk, hlrisk]
        rfl
      simp [List.filter_cons, h1, h2, h3, h4, hdiff]
    · unfold mkRiskConflict
      rw [hsrisk, hlrisk]
      norm_num [riskRank]

/-- Witness for C6: a concrete CRITICAL security output against a NONE
logic output — the detector returns the single conflict for that pair,
with disagreement level 1.0. -/
theorem risk_disagreement_one_conflict_per_pair_witness :
    detectRiskDisagreements [exSecurityCritical, exLogicNone]
      = [mkRiskConflict exSecurityCritical exLogicNone]
    ∧ (mkRiskConflict exSecurityCritical exLogicNone).disagreementLevel = 1 :=
  (risk_disagreement_one_conflict_per_pair [exSecurityCritical, exLogicNone]).2.2
    exSecurityCritical exLogicNone rfl rfl rfl rfl

mutual

/-- Counting branch nodes over a subtree's walk list equals the
structural branch count of the subtree. -/
theorem countP_branch_subnodes (n : PyNode) :
    (subnodes n).countP (fun c => isBranchKind c.kind) = branchCountNode n := by
  cases n with
  | mk k cs =>
    rw [subnodes, List.countP_cons, countP_branch_subnodesAll cs, branchCountNode]
    simp [PyNode.kind, Nat.add_comm]

/-- Counting branch nodes over a forest's walk list equals the structural
branch count of the forest. -/
theorem countP_branch_subnodesAll (ns : List PyNode) :
    (subnodesAll ns).countP (fun c => isBranchKind c.kind) = branchCountAll ns := by
  cases ns with
  | nil => rfl
  | cons n ns =>
    rw [subnodesAll, branchCountAll]
    simp [List.countP_append, countP_branch_subnodes n, countP_branch_subnodesAll ns]

end

/-- A function node whose body is a nested function containing one
`if` statement. -/
def exNestedFunction : PyNode :=
  .mk .functionDef [.mk .functionDef [.mk .ifStmt []]]

/-- Claim C7 (corrected), counterexample: for a function whose body is a
nested function containing one `if`, the claimed scoped count gives
complexity 1 (the `if` lies in the nested function's body), but
`_compute_complexity` walks into nested function bodies and returns 2. -/
theorem complexity_counts_nested_function_bodies :
    computeComplexity exNestedFunction = 2
    ∧ specComplexity exNestedFunction = 1
    ∧ computeComplexity exNestedFunction ≠ specComplexity exNestedFunction := by
  have h1 : computeComplexity exNestedFunction = 2 := by
    simp [computeComplexity, exNestedFunction, PyNode.children, subnodesAll, subnodes,
      List.countP_cons, List.countP_append, isBranchKind, PyNode.kind]
  have h2 : specComplexity exNestedFunction = 1 := by
    simp [specComplexity, exNestedFunction, PyNode.children, scopedBranchCountAll,
      scopedBranchCountNode, isBranchKind, isScopeBarrier]
  exact ⟨h1, h2, by rw [h1, h2]; decide⟩

/-- Claim C7 (amended): every block the Python parser emits has
complexity at least 1; a block emitted for a tree node is a function or
loop block with complexity equal to 1 plus the number of
branch-introducing constructs among ALL descendants of that node —
including those inside nested function and class bodies, which are
counted, not excluded — or a class block with the hard-coded baseline
complexity 1 (`_extract_class` never calls `_compute_complexity`). -/
theorem parser_complexity_counts_all_descendants (tree : PyNode) :
    (∀ b ∈ parseBlocks tree, 1 ≤ b.2)
    ∧ (∀ n ∈ subnodes tree, ∀ b : String × ℕ, visitNodeBlock n = some b →
        (b.1 = "class" → b.2 = 1)
        ∧ (b.1 = "function" ∨ b.1 = "loop" →
            b.2 = 1 + branchCountAll n.children))
    ∧ (∀ n : PyNode, computeComplexity n = 1 + branchCountAll n.children) := by
  have hcompute : ∀ n : PyNode, computeComplexity n = 1 + branchCountAll n.children := by
    intro n
    rw [computeComplexity, countP_branch_subnodesAll]
  refine ⟨?_, ?_, hcompute⟩
  · intro b hb
    rcases List.mem_filterMap.mp hb with ⟨n, _, hn⟩
    unfold visitNodeBlock at hn
    split at hn <;> cases hn <;> simp [computeComplexity]
  · intro n _ b hn
    unfold visitNodeBlock at hn
    split at hn <;> cases hn <;>
      first
        | exact ⟨fun h => by simp at h, fun _ => hcompute n⟩
        | exact ⟨fun _ => rfl, fun h => by rcases h with h | h <;> simp at h⟩

/-- Witness for C7 (amended): a module containing one bare `while` loop
emits a loop block of complexity 1 ≥ 1, and a class whose method contains
an `if` still emits a class block with the baseline complexity 1. -/
theorem parser_complexity_counts_all_descendants_witness :
    1 ≤ (("loop", computeComplexity (PyNode.mk .whileStmt [])) : String × ℕ).2
    ∧ (("class", 1) : String × ℕ).2 = 1 :=
  ⟨(parser_complexity_counts_all_descendants (.mk .module [.mk .whileStmt []])).1
      ("loop", computeComplexity (.mk .whileStmt []))
      (by
        simp [parseBlocks, subnodes, subnodesAll, visitNodeBlock, PyNode.kind]),
   ((parser_complexity_counts_all_descendants
        (.mk .classDef [.mk .functionDef [.mk .ifStmt []]])).2.1
      (.mk .classDef [.mk .functionDef [.mk .ifStmt []]])
      (by simp [subnodes, subnodesAll])
      ("class", 1) rfl).1 rfl⟩

/-- Claim C8 (confirmed): for every input block list of any size, the
Security selector and the Logic selector each return at most 5 blocks. -/
theorem selectors_cap_at_five (blocks : List CodeBlock) :
    (securitySelect blocks).length ≤ 5 ∧ (logicSelect blocks).length ≤ 5 := by
  constructor
  · rw [securitySelect, List.length_take]
    exact min_le_left _ _
  · rw [logicSelect, List.length_take]
    exact min_le_left _ _

/-- Claim C9 (confirmed): a `CodeSnippet` only constructs with
`relevance_score` in [0,1] (and valid line numbers), and after the routing
policy's truncation step the snippet list handed to the Security or Logic
agent has at most 5 snippets, each with content at most 500 characters and
relevance score still in [0,1]. -/
theorem routed_snippets_bounded :
    (∀ (fn : String) (sl el : ℕ) (ct : List Char) (cx : String) (sc : ℚ)
       (tg : List String) (s : CodeSnippet),
        mkCodeSnippet fn sl el ct cx sc tg = some s → snippetInvariant s)
    ∧ (∀ candidates : List CodeSnippet, (∀ s ∈ candidates, snippetInvariant s) →
        (routeForSecurityAgentSnippets candidates).length ≤ 5
        ∧ (∀ s ∈ routeForSecurityAgentSnippets candidates,
            s.content.length ≤ 500 ∧ 0 ≤ s.relevanceScore ∧ s.relevanceScore ≤ 1)
        ∧ (routeForLogicAgentSnippets candidates).length ≤ 5
        ∧ (∀ s ∈ routeForLogicAgentSnippets candidates,
            s.content.length ≤ 500 ∧ 0 ≤ s.relevanceScore ∧ s.relevanceScore ≤ 1)) := by
  constructor
  · intro fn sl el ct cx sc tg s h
    unfold mkCodeSnippet at h
    split at h
    · rename_i hcond
      cases h
      exact hcond
    · cases h
  · intro candidates hinv
    have hmain : ∀ s ∈ enforceSnippetConstraints 5 500 candidates,
        s.content.length ≤ 500 ∧ 0 ≤ s.relevanceScore ∧ s.relevanceScore ≤ 1 := by
      intro s hs
      rcases List.mem_map.mp hs with ⟨s0, hs0, heq⟩
      have hinv0 := hinv s0 (List.mem_of_mem_take hs0)
      subst heq
      unfold truncateSnippetContent
      split
      · refine ⟨?_, hinv0.1, hinv0.2.1⟩
        show (s0.content.take 500).length ≤ 500
        rw [List.length_take]
        exact min_le_left _ _
      · rename_i hle
        push_neg at hle
        exact ⟨hle, hinv0.1, hinv0.2.1⟩
    have hlen : (enforceSnippetConstraints 5 500 candidates).length ≤ 5 := by
      rw [enforceSnippetConstraints, List.length_map, List.length_take]
      exact min_le_left _ _
    exact ⟨hlen, hmain, hlen, hmain⟩

/-- A valid snippet the security router might receive. -/
def exSnippet : CodeSnippet :=
  ⟨"app.py", 1, 2, ['x'], "global scope", (1 : ℚ)/2, ["code_execution"]⟩

/-- Witness for C9: routing a single valid snippet yields at most 5
snippets, each within the content and score bounds. -/
theorem routed_snippets_bounded_witness :
    (routeForSecurityAgentSnippets [exSnippet]).length ≤ 5
    ∧ ∀ s ∈ routeForSecurityAgentSnippets [exSnippet],
        s.content.length ≤ 500 ∧ 0 ≤ s.relevanceScore ∧ s.relevanceScore ≤ 1 := by
  have hinv : ∀ s ∈ [exSnippet], snippetInvariant s := by
    intro s hs
    rw [List.mem_singleton] at hs
    subst hs
    exact ⟨by norm_num [exSnippet], by norm_num [exSnippet],
      by norm_num [exSnippet], by norm_num [exSnippet]⟩
  have h := routed_snippets_bounded.2 [exSnippet] hinv
  exact ⟨h.1, h.2.1⟩

/-- Witness for C10: two successful outputs that both reported confidence
0.0 — the gate defers with the "No successful agent outputs received"
reason even though successful outputs exist. -/
theorem no_success_rule_is_confidence_test_witness :
    shouldDefer (aggregateConfidence defaultAgentReliability
        [exSecurityZeroConfidence, ⟨.logicAnalysis, 0, [], .none, true, none⟩])
      [] ⟨[], false⟩ RiskLevel.low ((7 : ℚ)/10) = (true, .noSuccessfulOutputs) :=
  no_success_rule_is_confidence_test.2.1
    [exSecurityZeroConfidence, ⟨.logicAnalysis, 0, [], .none, true, none⟩]
    [] ⟨[], false⟩ RiskLevel.low ((7 : ℚ)/10) (by decide)
